import Mathlib

/-!
Verification of the session-registry component
(src/jupyter_server/services/sessions/sessionmanager.py).

The sqlite table `session` is modelled as a `List Row` in insertion order;
a cell is `Option String` (NULL or text).  The external kernel manager is
modelled by its interface: the set of alive kernel ids, the status-model
function, and the outcome of a shutdown request.  `cursor.fetchone` after
a SELECT becomes `List.find?` on the store; SQL equality against a bound
parameter (`col = ?`) is `sqlEq`, which is false whenever either side is
NULL, exactly as in SQL.
-/

namespace SessionMgr

/-- One row of the `session` table: columns `(session_id, path, name, type, kernel_id)`,
each nullable, matching the untyped sqlite schema created by the cursor property. -/
structure Row where
  session_id : Option String
  path : Option String
  name : Option String
  type : Option String
  kernel_id : Option String
deriving DecidableEq, Repr

/-- SQL three-valued equality of a column against a bound parameter, reduced to Bool:
`col = ?` is satisfied only when both sides are non-NULL and equal. -/
def sqlEq : Option String → Option String → Bool
  | some a, some b => a == b
  | _, _ => false

/-- Status model returned by the external kernel manager's kernel_model. -/
structure KernelModel where
  id : String
  execution_state : String
deriving DecidableEq, Repr

/-- Interface of the external MappingKernelManager, as consumed by SessionManager:
membership (`kernel_id in self.kernel_manager`), `kernel_model`, and whether a
`shutdown_kernel` request would succeed.  The kernel manager's contract is that a
kernel's status model reports its own id (`models_id`). -/
structure KernelManager where
  kernels : List String
  models : String → KernelModel
  models_id : ∀ k, (models k).id = k
  shutdownOk : String → Bool

/-- SessionManager.kernel_culled: true when the row's kernel id is not alive in the
kernel manager (a NULL kernel id is never a member, as in Python). -/
def kernel_culled (km : KernelManager) (kernel_id : Option String) : Bool :=
  match kernel_id with
  | some k => !(km.kernels.contains k)
  | none => true

/-- The session model dictionary built by row_to_model for a live row: session fields,
the kernel status model, and the deprecated notebook sub-object when type is
"notebook". -/
structure SessionModel where
  id : Option String
  path : Option String
  name : Option String
  type : Option String
  kernel : KernelModel
  notebook : Option (Option String × Option String)
deriving DecidableEq, Repr

/-- The model composed by row_to_model when the row's kernel is alive (the dictionary
literal at the end of row_to_model). -/
def composeModel (km : KernelManager) (r : Row) : SessionModel :=
  { id := r.session_id
    path := r.path
    name := r.name
    type := r.type
    kernel := km.models (r.kernel_id.getD "")
    notebook := if r.type = some "notebook" then some (r.path, r.name) else none }

/-- Outcome of row_to_model: a model, None (culled tolerated), or a raised KeyError. -/
inductive RtmOut where
  | ok (m : SessionModel)
  | culled
  | keyErr
deriving DecidableEq, Repr

/-- SessionManager.row_to_model: if the row's kernel is culled, delete every row with
the same session_id directly from storage (`DELETE FROM session WHERE session_id=?`),
then return None when tolerated or raise KeyError; otherwise compose and return the
model.  Returns the outcome together with the store after the call. -/
def row_to_model (km : KernelManager) (store : List Row) (row : Row)
    (tolerate_culled : Bool) : RtmOut × List Row :=
  if kernel_culled km row.kernel_id then
    let store' := store.filter (fun x => !(sqlEq x.session_id row.session_id))
    (if tolerate_culled then RtmOut.culled else RtmOut.keyErr, store')
  else
    (RtmOut.ok (composeModel km row), store)

/-- SessionManager.session_exists: fetch the first row with the given path; if found,
reconcile it tolerating a culled kernel; true only when reconciliation yields a model. -/
def session_exists (km : KernelManager) (store : List Row) (path : Option String) :
    Bool × List Row :=
  match store.find? (fun r => sqlEq r.path path) with
  | none => (false, store)
  | some row =>
    match row_to_model km store row true with
    | (RtmOut.ok _, s') => (true, s')
    | (_, s') => (false, s')

/-- SessionManager._columns: the closed column whitelist. -/
def columns : List String := ["session_id", "path", "name", "type", "kernel_id"]

/-- Read a whitelisted column of a row by name. -/
def getCol (r : Row) (c : String) : Option String :=
  if c = "session_id" then r.session_id
  else if c = "path" then r.path
  else if c = "name" then r.name
  else if c = "type" then r.type
  else if c = "kernel_id" then r.kernel_id
  else none

/-- A row satisfies the conjunction of `col=?` conditions built from the kwargs. -/
def rowMatches (kwargs : List (String × Option String)) (r : Row) : Bool :=
  kwargs.all (fun cv => sqlEq (getCol r cv.1) cv.2)

/-- Errors a session operation can raise: web.HTTPError 404, TypeError for a
non-whitelisted column, TypeError for an empty selector, and a propagated
kernel-shutdown failure. -/
inductive SErr where
  | notFound
  | invalidColumn (col : String)
  | emptyQuery
  | shutdownFailure
deriving DecidableEq, Repr

/-- SessionManager.get_session: reject an empty selector; reject the first column
outside the whitelist; fetch the first matching row (404 if none); reconcile it,
escalating a culled kernel's KeyError to 404.  Returns result and resulting store. -/
def get_session (km : KernelManager) (store : List Row)
    (kwargs : List (String × Option String)) : Except SErr SessionModel × List Row :=
  if kwargs.isEmpty then (Except.error SErr.emptyQuery, store)
  else
    match kwargs.find? (fun cv => !(columns.contains cv.1)) with
    | some cv => (Except.error (SErr.invalidColumn cv.1), store)
    | none =>
      match store.find? (rowMatches kwargs) with
      | none => (Except.error SErr.notFound, store)
      | some row =>
        match row_to_model km store row false with
        | (RtmOut.ok m, s') => (Except.ok m, s')
        | (_, s') => (Except.error SErr.notFound, s')

/-- Overwrite one whitelisted column of a row. -/
def setCol (r : Row) (c : String) (v : Option String) : Row :=
  if c = "session_id" then { r with session_id := v }
  else if c = "path" then { r with path := v }
  else if c = "name" then { r with name := v }
  else if c = "type" then { r with type := v }
  else if c = "kernel_id" then { r with kernel_id := v }
  else r

/-- Apply a SET list to a row, left to right. -/
def applyChanges (r : Row) (kwargs : List (String × Option String)) : Row :=
  kwargs.foldl (fun acc cv => setCol acc cv.1 cv.2) r

/-- SessionManager.update_session: first get_session(session_id=...) (which may cull),
then no-op on an empty change set, then reject the first non-whitelisted column,
then `UPDATE session SET ... WHERE session_id=?`. -/
def update_session (km : KernelManager) (store : List Row) (session_id : String)
    (kwargs : List (String × Option String)) : Except SErr Unit × List Row :=
  match get_session km store [("session_id", some session_id)] with
  | (Except.error e, s') => (Except.error e, s')
  | (Except.ok _, s') =>
    if kwargs.isEmpty then (Except.ok (), s')
    else
      match kwargs.find? (fun cv => !(columns.contains cv.1)) with
      | some cv => (Except.error (SErr.invalidColumn cv.1), s')
      | none =>
        (Except.ok (),
         s'.map (fun r =>
           if sqlEq r.session_id (some session_id) then applyChanges r kwargs else r))

/-- Externally visible events of delete_session, in the order the code performs them. -/
inductive DsEvent where
  | shutdown (kid : String)
  | removeRow (sid : String)
deriving DecidableEq, Repr

/-- SessionManager.delete_session: fetch the session (404 if absent or culled), ask the
kernel manager to shut down the model's kernel id, and only then delete the row; a
shutdown failure propagates and the row stays.  Returns the outcome, the store, the
kernel manager state, and the event trace. -/
def delete_session (km : KernelManager) (store : List Row) (session_id : String) :
    Except SErr Unit × List Row × KernelManager × List DsEvent :=
  match get_session km store [("session_id", some session_id)] with
  | (Except.error e, s') => (Except.error e, s', km, [])
  | (Except.ok m, s') =>
    let kid := m.kernel.id
    if km.shutdownOk kid then
      (Except.ok (),
       s'.filter (fun r => !(sqlEq r.session_id (some session_id))),
       { km with kernels := km.kernels.filter (fun k => k != kid) },
       [DsEvent.shutdown kid, DsEvent.removeRow session_id])
    else
      (Except.error SErr.shutdownFailure, s', km, [DsEvent.shutdown kid])

/-- Loop of SessionManager.list_sessions over the fetchall() snapshot: reconcile each
snapshot row against the evolving store, appending models of live rows and swallowing
the KeyError of culled ones. -/
def listLoop (km : KernelManager) (rows : List Row) (store : List Row)
    (acc : List SessionModel) : List SessionModel × List Row :=
  match rows with
  | [] => (acc.reverse, store)
  | row :: rest =>
    match row_to_model km store row false with
    | (RtmOut.ok m, s') => listLoop km rest s' (m :: acc)
    | (_, s') => listLoop km rest s' acc

/-- SessionManager.list_sessions: snapshot all rows with fetchall(), then reconcile each
independently. -/
def list_sessions (km : KernelManager) (store : List Row) :
    List SessionModel × List Row :=
  listLoop km store store []

/-- External collaborators of create_session: the kernel manager, the contents
manager's get_kernel_path, the kernel id that start_kernel would assign for a given
(resolved path, kernel_name) request, and the uuid that new_session_id returns. -/
structure Env where
  km : KernelManager
  get_kernel_path : Option String → String
  start_kernel_id : String → Option String → String
  fresh_session_id : String

/-- Effect of kernel_manager.start_kernel: the new kernel id becomes alive. -/
def addKernel (km : KernelManager) (kid : String) : KernelManager :=
  { km with kernels := kid :: km.kernels }

/-- SessionManager.save_session: INSERT the row, then return
get_session(session_id=...). -/
def save_session (km : KernelManager) (store : List Row) (session_id : Option String)
    (path name ty kernel_id : Option String) : Except SErr SessionModel × List Row :=
  let store' := store ++ [Row.mk session_id path name ty kernel_id]
  get_session km store' [("session_id", session_id)]

/-- SessionManager.create_session: generate a session id; reuse the supplied kernel id
when it is alive, otherwise start a kernel in the directory resolved by
get_kernel_path; then save_session.  Returns result, store, and kernel manager. -/
def create_session (env : Env) (store : List Row)
    (path name ty kernel_name kernel_id : Option String) :
    Except SErr SessionModel × List Row × KernelManager :=
  let sid := env.fresh_session_id
  match kernel_id with
  | some k =>
    if env.km.kernels.contains k then
      let out := save_session env.km store (some sid) path name ty (some k)
      (out.1, out.2, env.km)
    else
      let kid := env.start_kernel_id (env.get_kernel_path path) kernel_name
      let km' := addKernel env.km kid
      let out := save_session km' store (some sid) path name ty (some kid)
      (out.1, out.2, km')
  | none =>
    let kid := env.start_kernel_id (env.get_kernel_path path) kernel_name
    let km' := addKernel env.km kid
    let out := save_session km' store (some sid) path name ty (some kid)
    (out.1, out.2, km')

/-- The SessionRecord dataclass used for lightweight comparison. -/
structure SessionRecord where
  session_id : Option String := none
  kernel_id : Option String := none
  recorded : Option Bool := none
deriving DecidableEq, Repr

/-- Python truthiness of an optional string: None and the empty string are falsy. -/
def truthy : Option String → Bool
  | none => false
  | some s => s != ""

/-- SessionRecord.__eq__: true when the session ids are truthy on both sides and equal,
or the kernel ids are truthy on both sides and equal. -/
def srEq (a b : SessionRecord) : Bool :=
  (truthy a.session_id && truthy b.session_id && a.session_id == b.session_id) ||
  (truthy a.kernel_id && truthy b.kernel_id && a.kernel_id == b.kernel_id)

/-- What the filesystem holds at the configured database path. -/
inductive FsEntry where
  | missing
  | directory
  | file (content : List Nat)
deriving DecidableEq, Repr

/-- Outcome of the database_filepath validator: the accepted value, or a TraitError. -/
inductive ValidationOutcome where
  | accepted (value : String)
  | configError
deriving DecidableEq, Repr

/-- The 15 bytes of the sqlite magic string checked by the validator. -/
def sqliteHeaderBytes : List Nat := ("SQLite format 3".toList.map Char.toNat)

/-- SessionManager._validate_database_filepath: accept ":memory:"; accept a missing
path; reject a directory; for an existing file read the first 100 bytes and reject
unless they start with the sqlite magic or the file is empty. -/
def validate_database_filepath (fs : String → FsEntry) (value : String) :
    ValidationOutcome :=
  if value = ":memory:" then ValidationOutcome.accepted value
  else
    match fs value with
    | FsEntry.missing => ValidationOutcome.accepted value
    | FsEntry.directory => ValidationOutcome.configError
    | FsEntry.file content =>
      let header := content.take 100
      if !(sqliteHeaderBytes.isPrefixOf header) && !(header.isEmpty) then
        ValidationOutcome.configError
      else ValidationOutcome.accepted value

/-- The lazily initialized storage handles of a SessionManager: _cursor and
_connection, each None until first use. -/
structure ConnState where
  cursor_handle : Option Unit
  connection_handle : Option Unit
deriving DecidableEq, Repr

/-- The connection property: open the sqlite connection on first access. -/
def getConnection (s : ConnState) : ConnState :=
  match s.connection_handle with
  | none => { s with connection_handle := some () }
  | some _ => s

/-- The cursor property: on first access, obtain a cursor from the connection property
(opening the connection if needed) and create the session table. -/
def getCursor (s : ConnState) : ConnState :=
  match s.cursor_handle with
  | none =>
    let s' := getConnection s
    { s' with cursor_handle := some () }
  | some _ => s

/-- SessionManager.close (also run by __del__): close the cursor and clear it; the
method body never touches _connection. -/
def close (s : ConnState) : ConnState :=
  match s.cursor_handle with
  | none => s
  | some _ => { s with cursor_handle := none }

/-- A concrete kernel manager used to instantiate theorems: kernels kAlive and k2 are
alive, status models echo the kernel id, shutdown always succeeds. -/
def kmW : KernelManager where
  kernels := ["kAlive", "k2"]
  models := fun k => { id := k, execution_state := "idle" }
  models_id := fun _ => rfl
  shutdownOk := fun _ => true

/-- A stored row whose kernel is alive in kmW. -/
def rowAlive : Row := Row.mk (some "sA") (some "/a.ipynb") (some "a") (some "notebook") (some "kAlive")

/-- A stored row whose kernel is absent from kmW. -/
def rowDead : Row := Row.mk (some "sD") (some "/d.ipynb") (some "d") (some "console") (some "kGone")

/-- A concrete store holding one live and one orphaned row. -/
def storeW : List Row := [rowAlive, rowDead]

/-- A concrete environment for create_session instantiations. -/
def envW : Env where
  km := kmW
  get_kernel_path := fun _ => "/dir"
  start_kernel_id := fun _ _ => "kNew"
  fresh_session_id := "sFresh"

/-- A kernel manager in which only k2 is alive. -/
def kmC5 : KernelManager where
  kernels := ["k2"]
  models := fun k => { id := k, execution_state := "idle" }
  models_id := fun _ => rfl
  shutdownOk := fun _ => true

/-- Two rows sharing the path "/a": the first row's kernel k1 is dead in kmC5, the
second row's kernel k2 is alive. -/
def storeC5 : List Row :=
  [Row.mk (some "s1") (some "/a") none none (some "k1"),
   Row.mk (some "s2") (some "/a") none none (some "k2")]

/-- A filesystem in which every path is an existing directory. -/
def fsDirW : String → FsEntry := fun _ => FsEntry.directory

theorem sqlEq_some_self (s : String) : sqlEq (some s) (some s) = true := by
  simp [sqlEq]

theorem rowMatches_session_id (sid : Option String) (r : Row) :
    rowMatches [("session_id", sid)] r = sqlEq r.session_id sid := by
  simp [rowMatches, getCol]

theorem isEmpty_false_of_ne_nil {kwargs : List (String × Option String)}
    (hne : kwargs ≠ []) : kwargs.isEmpty = false := by
  cases kwargs with
  | nil => exact absurd rfl hne
  | cons a l => rfl

theorem find?_bad_col_eq_none {kwargs : List (String × Option String)}
    (hcols : ∀ cv ∈ kwargs, columns.contains cv.1 = true) :
    kwargs.find? (fun cv => !(columns.contains cv.1)) = none := by
  rw [List.find?_eq_none]
  intro cv hcv
  simp only [hcols cv hcv, Bool.not_true, Bool.false_eq_true, not_false_eq_true]

theorem get_session_no_row (km : KernelManager) (store : List Row)
    (kwargs : List (String × Option String)) (hne : kwargs ≠ [])
    (hcols : ∀ cv ∈ kwargs, columns.contains cv.1 = true)
    (hfind : store.find? (rowMatches kwargs) = none) :
    get_session km store kwargs = (Except.error SErr.notFound, store) := by
  simp only [get_session, isEmpty_false_of_ne_nil hne, find?_bad_col_eq_none hcols, hfind]
  simp

theorem get_session_found_alive (km : KernelManager) (store : List Row)
    (kwargs : List (String × Option String)) (row : Row) (hne : kwargs ≠ [])
    (hcols : ∀ cv ∈ kwargs, columns.contains cv.1 = true)
    (hfind : store.find? (rowMatches kwargs) = some row)
    (halive : kernel_culled km row.kernel_id = false) :
    get_session km store kwargs = (Except.ok (composeModel km row), store) := by
  simp only [get_session, isEmpty_false_of_ne_nil hne, find?_bad_col_eq_none hcols, hfind]
  simp [row_to_model, halive]

theorem get_session_found_culled (km : KernelManager) (store : List Row)
    (kwargs : List (String × Option String)) (row : Row) (hne : kwargs ≠ [])
    (hcols : ∀ cv ∈ kwargs, columns.contains cv.1 = true)
    (hfind : store.find? (rowMatches kwargs) = some row)
    (hculled : kernel_culled km row.kernel_id = true) :
    get_session km store kwargs =
      (Except.error SErr.notFound,
       store.filter (fun x => !(sqlEq x.session_id row.session_id))) := by
  simp only [get_session, isEmpty_false_of_ne_nil hne, find?_bad_col_eq_none hcols, hfind]
  simp [row_to_model, hculled]

/-- C9: the storage handle is indeed opened lazily (the first cursor access opens the
connection), but the shutdown operation does not release the connection: close() on a
manager whose handles are open clears only the cursor and leaves the connection handle
set, contradicting close()'s own docstring ("Close the sqlite connection") and the
claim that both handles are released. -/
theorem c9_close_leaves_connection :
    getCursor (ConnState.mk none none) = ConnState.mk (some ()) (some ()) ∧
    close (getCursor (ConnState.mk none none)) = ConnState.mk none (some ()) := by
  decide

/-- C3: for every session id whose row exists and whose kernel is alive, delete_session
shuts the kernel down strictly before removing the row (the event trace on success is
shutdown then row removal); if shutdown fails the error propagates with storage and
kernel state unchanged; after a successful delete, get_session on that session id
fails with NotFound. -/
theorem c3_delete_session (km : KernelManager) (store : List Row) (sid : String)
    (row : Row)
    (hfind : store.find? (rowMatches [("session_id", some sid)]) = some row)
    (halive : kernel_culled km row.kernel_id = false) :
    (km.shutdownOk (composeModel km row).kernel.id = false →
      delete_session km store sid =
        (Except.error SErr.shutdownFailure, store, km,
         [DsEvent.shutdown (composeModel km row).kernel.id])) ∧
    (km.shutdownOk (composeModel km row).kernel.id = true →
      (delete_session km store sid).1 = Except.ok () ∧
      (delete_session km store sid).2.2.2 =
        [DsEvent.shutdown (composeModel km row).kernel.id, DsEvent.removeRow sid] ∧
      (get_session (delete_session km store sid).2.2.1 (delete_session km store sid).2.1
        [("session_id", some sid)]).1 = Except.error SErr.notFound) := by
  have hget := get_session_found_alive km store [("session_id", some sid)] row (by simp)
    (by intro cv hcv; simp_all [columns]) hfind halive
  constructor
  · intro hko
    simp [delete_session, hget, hko]
  · intro hok
    have hfnone : (store.filter (fun r => !(sqlEq r.session_id (some sid)))).find?
        (rowMatches [("session_id", some sid)]) = none := by
      rw [List.find?_eq_none]
      intro x hx
      rw [List.mem_filter] at hx
      rw [rowMatches_session_id]
      intro hcontra
      have hpred := hx.2
      rw [hcontra] at hpred
      simp at hpred
    have hnot := get_session_no_row
      { km with kernels := km.kernels.filter (fun k => k != (composeModel km row).kernel.id) }
      (store.filter (fun r => !(sqlEq r.session_id (some sid))))
      [("session_id", some sid)] (by simp)
      (by intro cv hcv; simp_all [columns]) hfnone
    simp [delete_session, hget, hok, hnot]

theorem c3_witness :
    storeW.find? (rowMatches [("session_id", some "sA")]) = some rowAlive ∧
    (delete_session kmW storeW "sA").1 = Except.ok () ∧
    (delete_session kmW storeW "sA").2.2.2 =
      [DsEvent.shutdown (composeModel kmW rowAlive).kernel.id, DsEvent.removeRow "sA"] ∧
    (get_session (delete_session kmW storeW "sA").2.2.1 (delete_session kmW storeW "sA").2.1
      [("session_id", some "sA")]).1 = Except.error SErr.notFound := by
  refine ⟨by decide, ?_⟩
  exact (c3_delete_session kmW storeW "sA" rowAlive (by decide) (by decide)).2 (by decide)

theorem listLoop_fst (km : KernelManager) (rows : List Row) :
    ∀ (store : List Row) (acc : List SessionModel),
      (listLoop km rows store acc).1 =
        acc.reverse ++
          (rows.filter (fun r => !(kernel_culled km r.kernel_id))).map (composeModel km) := by
  induction rows with
  | nil => intro store acc; simp [listLoop]
  | cons row rest ih =>
    intro store acc
    cases hk : kernel_culled km row.kernel_id with
    | true => simp [listLoop, row_to_model, hk, ih, List.filter_cons]
    | false => simp [listLoop, row_to_model, hk, ih, List.filter_cons]

theorem listLoop_snd (km : KernelManager) (rows : List Row) :
    ∀ (store : List Row) (acc : List SessionModel),
      (listLoop km rows store acc).2 =
        store.filter (fun x =>
          !((rows.filter (fun d => kernel_culled km d.kernel_id)).any
              (fun d => sqlEq x.session_id d.session_id))) := by
  induction rows with
  | nil => intro store acc; simp [listLoop]
  | cons row rest ih =>
    intro store acc
    cases hk : kernel_culled km row.kernel_id with
    | false => simp [listLoop, row_to_model, hk, ih, List.filter_cons]
    | true =>
      simp only [listLoop, row_to_model, hk, if_pos, List.filter_cons, List.any_cons,
        Bool.not_or, if_true, Bool.false_eq_true, if_false]
      rw [ih, List.filter_filter]
      apply List.filter_congr
      intro x hx
      exact Bool.and_comm _ _

/-- C1: list_sessions snapshots all rows and reconciles each independently: its result
is exactly the composed model of every snapshot row whose kernel is alive, in storage
order; every row whose kernel is dead is deleted from storage and silently omitted;
and the call returns normally with the empty sequence when every row's kernel is dead
(rows are assumed to carry session ids, as create_session guarantees). -/
theorem c1_list_sessions (km : KernelManager) (store : List Row)
    (h : ∀ r ∈ store, r.session_id ≠ none) :
    (list_sessions km store).1 =
      (store.filter (fun r => !(kernel_culled km r.kernel_id))).map (composeModel km) ∧
    (∀ r ∈ store, kernel_culled km r.kernel_id = true →
      r ∉ (list_sessions km store).2) ∧
    ((∀ r ∈ store, kernel_culled km r.kernel_id = true) →
      (list_sessions km store).1 = []) := by
  refine ⟨by simpa [list_sessions] using listLoop_fst km store store [], ?_, ?_⟩
  · intro r hr hd hmem
    rw [show (list_sessions km store).2 = (listLoop km store store []).2 from rfl,
      listLoop_snd km store store []] at hmem
    rw [List.mem_filter] at hmem
    obtain ⟨s, hs⟩ := Option.ne_none_iff_exists'.mp (h r hr)
    have hany : (store.filter (fun d => kernel_culled km d.kernel_id)).any
        (fun d => sqlEq r.session_id d.session_id) = true := by
      rw [List.any_eq_true]
      exact ⟨r, List.mem_filter.mpr ⟨hr, hd⟩, by rw [hs]; exact sqlEq_some_self s⟩
    have hpred := hmem.2
    rw [hany] at hpred
    simp at hpred
  · intro hall
    have hnil : store.filter (fun r => !(kernel_culled km r.kernel_id)) = [] := by
      rw [List.filter_eq_nil_iff]
      intro a ha
      simp [hall a ha]
    have h1 := listLoop_fst km store store []
    simp [list_sessions, h1, hnil]

theorem c1_witness :
    (∀ r ∈ storeW, r.session_id ≠ none) ∧
    (list_sessions kmW storeW).1 =
      (storeW.filter (fun r => !(kernel_culled kmW r.kernel_id))).map (composeModel kmW) ∧
    rowDead ∉ (list_sessions kmW storeW).2 := by
  refine ⟨by decide, (c1_list_sessions kmW storeW (by decide)).1, ?_⟩
  exact (c1_list_sessions kmW storeW (by decide)).2.1 rowDead (by decide) (by decide)

theorem sqlEq_some_right_iff (o : Option String) (p : String) :
    sqlEq o (some p) = true ↔ o = some p := by
  cases o <;> simp [sqlEq]

/-- C5 counterexample: with two stored rows sharing the path "/a", the first bound to
a dead kernel and the second to a live one, session_exists examines only the first
matching row and returns false, although a row with that path whose kernel is alive
does exist; so the claimed iff fails as stated. -/
theorem c5_counterexample :
    (session_exists kmC5 storeC5 (some "/a")).1 = false ∧
    ∃ r ∈ storeC5, r.path = some "/a" ∧ kernel_culled kmC5 r.kernel_id = false := by
  decide

/-- C5 (amended): when at most one stored row carries the queried path (and rows carry
session ids, as create_session guarantees), session_exists(path) is true iff a row
with that path exists and its kernel is alive; when that row exists but its kernel is
dead, session_exists returns false without raising, deletes the orphaned row from
storage, and a second call returns false again. -/
theorem c5_session_exists (km : KernelManager) (store : List Row) (p : String)
    (hsid : ∀ r ∈ store, r.session_id ≠ none)
    (huniq : ∀ r1 ∈ store, ∀ r2 ∈ store,
      sqlEq r1.path (some p) = true → sqlEq r2.path (some p) = true → r1 = r2) :
    ((session_exists km store (some p)).1 = true ↔
      ∃ r ∈ store, r.path = some p ∧ kernel_culled km r.kernel_id = false) ∧
    (∀ row, store.find? (fun r => sqlEq r.path (some p)) = some row →
      kernel_culled km row.kernel_id = true →
      (session_exists km store (some p)).1 = false ∧
      row ∉ (session_exists km store (some p)).2 ∧
      (session_exists km (session_exists km store (some p)).2 (some p)).1 = false) := by
  constructor
  · constructor
    · intro htrue
      cases hf : store.find? (fun r => sqlEq r.path (some p)) with
      | none => simp [session_exists, hf] at htrue
      | some row =>
        have hmem := List.mem_of_find?_eq_some hf
        have hpath := List.find?_some hf
        cases hk : kernel_culled km row.kernel_id with
        | false => exact ⟨row, hmem, (sqlEq_some_right_iff _ _).mp hpath, hk⟩
        | true => simp [session_exists, hf, row_to_model, hk] at htrue
    · rintro ⟨r, hr, hrp, hra⟩
      cases hf : store.find? (fun r => sqlEq r.path (some p)) with
      | none =>
        exfalso
        apply List.find?_eq_none.mp hf r hr
        rw [hrp]
        exact sqlEq_some_self p
      | some row =>
        have hrowp : sqlEq row.path (some p) = true := by
          simpa using List.find?_some hf
        have heq : row = r := huniq row (List.mem_of_find?_eq_some hf) r hr
          hrowp (by rw [hrp]; exact sqlEq_some_self p)
        rw [heq] at hf
        simp [session_exists, hf, row_to_model, hra]
  · intro row hf hk
    have hmem := List.mem_of_find?_eq_some hf
    have hrp : sqlEq row.path (some p) = true := by
      simpa using List.find?_some hf
    obtain ⟨s, hs⟩ := Option.ne_none_iff_exists'.mp (hsid row hmem)
    have hses : session_exists km store (some p) =
        (false, store.filter (fun x => !(sqlEq x.session_id row.session_id))) := by
      simp [session_exists, hf, row_to_model, hk]
    refine ⟨by rw [hses], ?_, ?_⟩
    · rw [hses]
      intro hmem2
      rw [List.mem_filter] at hmem2
      have hpred := hmem2.2
      rw [hs] at hpred
      simp [sqlEq_some_self] at hpred
    · rw [hses]
      have hf2 : (store.filter (fun x => !(sqlEq x.session_id row.session_id))).find?
          (fun r => sqlEq r.path (some p)) = none := by
        rw [List.find?_eq_none]
        intro x hx
        rw [List.mem_filter] at hx
        intro hpx
        have hxr : x = row := huniq x hx.1 row hmem hpx hrp
        have hp2 := hx.2
        rw [hxr, hs] at hp2
        simp [sqlEq_some_self] at hp2
      simp [session_exists, hf2]

theorem c5_witness :
    (∀ r ∈ storeW, r.session_id ≠ none) ∧
    storeW.find? (fun r => sqlEq r.path (some "/d.ipynb")) = some rowDead ∧
    (session_exists kmW storeW (some "/d.ipynb")).1 = false ∧
    rowDead ∉ (session_exists kmW storeW (some "/d.ipynb")).2 ∧
    (session_exists kmW (session_exists kmW storeW (some "/d.ipynb")).2
      (some "/d.ipynb")).1 = false := by
  refine ⟨by decide, by decide, ?_⟩
  have h := (c5_session_exists kmW storeW "/d.ipynb" (by decide) (by decide)).2 rowDead
    (by decide) (by decide)
  exact ⟨h.1, h.2.1, h.2.2⟩

theorem save_session_fresh_alive (km : KernelManager) (store : List Row) (sid : String)
    (path name ty : Option String) (k : String)
    (hfresh : ∀ r ∈ store, sqlEq r.session_id (some sid) = false)
    (halive : km.kernels.contains k = true) :
    save_session km store (some sid) path name ty (some k) =
      (Except.ok (composeModel km (Row.mk (some sid) path name ty (some k))),
       store ++ [Row.mk (some sid) path name ty (some k)]) := by
  have h1 : store.find? (rowMatches [("session_id", some sid)]) = none := by
    rw [List.find?_eq_none]
    intro r hr
    rw [rowMatches_session_id]
    simp [hfresh r hr]
  have hfind : (store ++ [Row.mk (some sid) path name ty (some k)]).find?
      (rowMatches [("session_id", some sid)]) =
      some (Row.mk (some sid) path name ty (some k)) := by
    rw [List.find?_append, h1]
    simp [rowMatches_session_id, sqlEq_some_self]
  have hget := get_session_found_alive km (store ++ [Row.mk (some sid) path name ty (some k)])
    [("session_id", some sid)] (Row.mk (some sid) path name ty (some k)) (by simp)
    (by intro cv hcv; simp_all [columns]) hfind
    (by simp only [kernel_culled, halive, Bool.not_true])
  simpa [save_session] using hget

/-- C6: with a freshly generated session id, create_session reuses a supplied kernel id
that is alive in the kernel registry (starting no kernel and leaving the registry
unchanged), and otherwise starts a new kernel in the directory resolved by
get_kernel_path; in both cases the row is persisted at the end of the store and the
composed model of the new row is returned. -/
theorem c6_create_session (env : Env) (store : List Row)
    (path name ty kname kid_opt : Option String)
    (hfresh : ∀ r ∈ store, sqlEq r.session_id (some env.fresh_session_id) = false) :
    (∀ k, kid_opt = some k → env.km.kernels.contains k = true →
      create_session env store path name ty kname kid_opt =
        (Except.ok (composeModel env.km
            (Row.mk (some env.fresh_session_id) path name ty (some k))),
         store ++ [Row.mk (some env.fresh_session_id) path name ty (some k)],
         env.km)) ∧
    ((kid_opt = none ∨ ∃ k, kid_opt = some k ∧ env.km.kernels.contains k = false) →
      create_session env store path name ty kname kid_opt =
        (Except.ok (composeModel
            (addKernel env.km (env.start_kernel_id (env.get_kernel_path path) kname))
            (Row.mk (some env.fresh_session_id) path name ty
              (some (env.start_kernel_id (env.get_kernel_path path) kname)))),
         store ++ [Row.mk (some env.fresh_session_id) path name ty
            (some (env.start_kernel_id (env.get_kernel_path path) kname))],
         addKernel env.km (env.start_kernel_id (env.get_kernel_path path) kname))) := by
  constructor
  · intro k hk hal
    subst hk
    have hs := save_session_fresh_alive env.km store env.fresh_session_id path name ty k
      hfresh hal
    simp only [create_session]
    split
    · simp [hs]
    · rename_i h
      exact absurd hal (by simpa using h)
  · intro hcase
    have halive2 : (addKernel env.km (env.start_kernel_id (env.get_kernel_path path)
        kname)).kernels.contains (env.start_kernel_id (env.get_kernel_path path) kname)
        = true := by
      simp [addKernel]
    have hs := save_session_fresh_alive
      (addKernel env.km (env.start_kernel_id (env.get_kernel_path path) kname)) store
      env.fresh_session_id path name ty
      (env.start_kernel_id (env.get_kernel_path path) kname) hfresh halive2
    cases kid_opt with
    | none => simp [create_session, hs]
    | some k =>
      have hdead : env.km.kernels.contains k = false := by
        rcases hcase with h | ⟨k2, hk2, hd2⟩
        · exact absurd h (by simp)
        · rw [Option.some.injEq] at hk2
          rw [hk2]
          exact hd2
      simp only [create_session]
      split
      · rename_i h
        rw [hdead] at h
        cases h
      · simp [hs]

theorem c6_witness :
    (∀ r ∈ storeW, sqlEq r.session_id (some envW.fresh_session_id) = false) ∧
    create_session envW storeW (some "/n.ipynb") (some "n") (some "notebook") none
        (some "kAlive") =
      (Except.ok (composeModel envW.km
          (Row.mk (some envW.fresh_session_id) (some "/n.ipynb") (some "n")
            (some "notebook") (some "kAlive"))),
       storeW ++ [Row.mk (some envW.fresh_session_id) (some "/n.ipynb") (some "n")
          (some "notebook") (some "kAlive")],
       envW.km) := by
  refine ⟨by decide, ?_⟩
  exact (c6_create_session envW storeW (some "/n.ipynb") (some "n") (some "notebook")
    none (some "kAlive") (by decide)).1 "kAlive" rfl (by decide)

/-- C10: in update_session the existence check (get_session) runs strictly before the
column-whitelist check: when no stored row matches the session id, update_session
fails with NotFound for every change set, including one holding a non-whitelisted
column, and leaves the store unchanged, so InvalidColumn is never raised for a
nonexistent session. -/
theorem c10_update_nonexistent (km : KernelManager) (store : List Row) (sid : String)
    (kwargs : List (String × Option String))
    (hfind : store.find? (rowMatches [("session_id", some sid)]) = none) :
    update_session km store sid kwargs = (Except.error SErr.notFound, store) := by
  have h := get_session_no_row km store [("session_id", some sid)] (by simp)
    (by intro cv hcv; simp_all [columns]) hfind
  simp [update_session, h]

/-- C7 counterexample: two records whose session ids are both present (equal to
some "") and equal, so the claim says they are equal; but SessionRecord equality
tests Python truthiness, the empty string is falsy, their kernel ids differ, and
the comparison yields false. -/
theorem c7_counterexample :
    srEq (SessionRecord.mk (some "") (some "k1") none)
        (SessionRecord.mk (some "") (some "k2") none) = false ∧
    (SessionRecord.mk (some "") (some "k1") none).session_id ≠ none ∧
    (SessionRecord.mk (some "") (some "k2") none).session_id ≠ none ∧
    (SessionRecord.mk (some "") (some "k1") none).session_id =
      (SessionRecord.mk (some "") (some "k2") none).session_id := by
  decide

/-- C7 (amended): two lightweight comparison records are equal if and only if their
session ids are both present, nonempty, and equal, or their kernel ids are both
present, nonempty, and equal; no other field (in particular recorded) influences
equality. -/
theorem c7_record_equality (a b : SessionRecord) :
    srEq a b = true ↔
      (∃ s, a.session_id = some s ∧ b.session_id = some s ∧ s ≠ "") ∨
      (∃ k, a.kernel_id = some k ∧ b.kernel_id = some k ∧ k ≠ "") := by
  rcases a with ⟨sa, ka, ra⟩
  rcases b with ⟨sb, kb, rb⟩
  cases sa <;> cases sb <;> cases ka <;> cases kb <;>
    simp [srEq, truthy] <;> aesop

theorem isPrefixOf_take_eq (l xs : List Nat) (n : Nat) (hlen : l.length ≤ n) :
    List.isPrefixOf l (xs.take n) = List.isPrefixOf l xs := by
  induction l generalizing xs n with
  | nil => simp [List.isPrefixOf]
  | cons a as ih =>
    cases n with
    | zero => simp at hlen
    | succ m =>
      cases xs with
      | nil => simp
      | cons x xs2 =>
        simp [List.isPrefixOf, ih xs2 m (Nat.le_of_succ_le_succ hlen)]

/-- C8: for every backing-store path other than the in-memory sentinel, validation
fails exactly when the path is an existing directory or an existing file whose
content is nonempty and does not begin with the sqlite header; in every other case
the value is accepted unchanged. -/
theorem c8_validate_filepath (fs : String → FsEntry) (value : String)
    (hmem : value ≠ ":memory:") :
    (validate_database_filepath fs value = ValidationOutcome.configError ↔
      (fs value = FsEntry.directory ∨
        ∃ content, fs value = FsEntry.file content ∧ content ≠ [] ∧
          sqliteHeaderBytes.isPrefixOf content = false)) ∧
    (validate_database_filepath fs value ≠ ValidationOutcome.configError →
      validate_database_filepath fs value = ValidationOutcome.accepted value) := by
  have hlen : sqliteHeaderBytes.length ≤ 100 := by decide
  cases hfs : fs value with
  | missing => simp [validate_database_filepath, if_neg hmem, hfs]
  | directory => simp [validate_database_filepath, if_neg hmem, hfs]
  | file content =>
    have hpt : sqliteHeaderBytes.isPrefixOf (content.take 100) =
        sqliteHeaderBytes.isPrefixOf content := isPrefixOf_take_eq _ _ _ hlen
    have hemp : (content.take 100).isEmpty = content.isEmpty := by
      rw [Bool.eq_iff_iff]
      simp [List.isEmpty_iff, List.take_eq_nil_iff]
    simp only [validate_database_filepath, if_neg hmem, hfs, hpt, hemp]
    by_cases hpre : sqliteHeaderBytes.isPrefixOf content = true
    · simp [hpre]
    · rw [Bool.not_eq_true] at hpre
      by_cases he : content = []
      · subst he
        simp [hpre]
      · have : content.isEmpty = false := by
          simpa [List.isEmpty_iff] using he
        simp [hpre, this, he]

theorem c8_witness :
    ("sessions.db" ≠ ":memory:") ∧
    validate_database_filepath fsDirW "sessions.db" = ValidationOutcome.configError := by
  refine ⟨by decide, ?_⟩
  exact (c8_validate_filepath fsDirW "sessions.db" (by decide)).1.mpr (Or.inl rfl)

/-- C2: for every non-empty selector over whitelisted columns (in a store whose rows
carry session ids, as create_session guarantees), get_session fails with NotFound
and leaves storage unchanged when no row matches, and when the first matching row's
kernel is dead it fails with NotFound after deleting that row from storage. -/
theorem c2_get_session (km : KernelManager) (store : List Row)
    (kwargs : List (String × Option String)) (h1 : kwargs ≠ [])
    (h2 : ∀ cv ∈ kwargs, columns.contains cv.1 = true)
    (h3 : ∀ r ∈ store, r.session_id ≠ none) :
    (store.find? (rowMatches kwargs) = none →
      get_session km store kwargs = (Except.error SErr.notFound, store)) ∧
    (∀ row, store.find? (rowMatches kwargs) = some row →
      kernel_culled km row.kernel_id = true →
      (get_session km store kwargs).1 = Except.error SErr.notFound ∧
      row ∉ (get_session km store kwargs).2) := by
  refine ⟨fun hf => get_session_no_row km store kwargs h1 h2 hf, ?_⟩
  intro row hf hc
  rw [get_session_found_culled km store kwargs row h1 h2 hf hc]
  refine ⟨rfl, ?_⟩
  intro hmem
  rw [List.mem_filter] at hmem
  obtain ⟨s, hs⟩ := Option.ne_none_iff_exists'.mp (h3 row (List.mem_of_find?_eq_some hf))
  have hpred := hmem.2
  rw [hs] at hpred
  simp [sqlEq_some_self] at hpred

theorem c2_witness :
    ([("session_id", (some "sD" : Option String))] ≠ []) ∧
    (∀ r ∈ storeW, r.session_id ≠ none) ∧
    (get_session kmW storeW [("session_id", some "sD")]).1 = Except.error SErr.notFound ∧
    rowDead ∉ (get_session kmW storeW [("session_id", some "sD")]).2 := by
  refine ⟨by decide, by decide, ?_⟩
  exact (c2_get_session kmW storeW [("session_id", some "sD")] (by decide) (by decide)
    (by decide)).2 rowDead (by decide) (by decide)

/-- C4: for every session id whose row exists and whose kernel is alive, an update
whose change set holds a key outside the column whitelist fails with InvalidColumn
naming a non-whitelisted column, and the store is exactly as before the call. -/
theorem c4_update_invalid_column (km : KernelManager) (store : List Row) (sid : String)
    (row : Row) (kwargs : List (String × Option String))
    (hfind : store.find? (rowMatches [("session_id", some sid)]) = some row)
    (halive : kernel_culled km row.kernel_id = false)
    (hbad : ∃ cv ∈ kwargs, columns.contains cv.1 = false) :
    ∃ c, columns.contains c = false ∧
      update_session km store sid kwargs = (Except.error (SErr.invalidColumn c), store) := by
  have hget := get_session_found_alive km store [("session_id", some sid)] row (by simp)
    (by intro cv hcv; simp_all [columns]) hfind halive
  obtain ⟨cv0, hcv0, hbad0⟩ := hbad
  have hne : kwargs.isEmpty = false := by
    cases kwargs with
    | nil => simp at hcv0
    | cons a l => rfl
  have hfs : (kwargs.find? (fun cv => !(columns.contains cv.1))).isSome := by
    rw [List.find?_isSome]
    exact ⟨cv0, hcv0, by simp only [hbad0, Bool.not_false]⟩
  obtain ⟨cv1, hcv1⟩ := Option.isSome_iff_exists.mp hfs
  have hp1 := List.find?_some hcv1
  refine ⟨cv1.1, by simpa using hp1, ?_⟩
  simp only [update_session, hget, hne, hcv1]
  simp

theorem c4_witness :
    storeW.find? (rowMatches [("session_id", some "sA")]) = some rowAlive ∧
    (∃ c, columns.contains c = false ∧
      update_session kmW storeW "sA" [("bogus_column", some "v")] =
        (Except.error (SErr.invalidColumn c), storeW)) := by
  refine ⟨by decide, ?_⟩
  exact c4_update_invalid_column kmW storeW "sA" rowAlive [("bogus_column", some "v")]
    (by decide) (by decide) ⟨("bogus_column", some "v"), by decide, by decide⟩

theorem c10_witness :
    ([] : List Row).find? (rowMatches [("session_id", some "sX")]) = none ∧
    update_session kmW [] "sX" [("bogus", some "v")] =
      (Except.error SErr.notFound, []) := by
  refine ⟨by decide, c10_update_nonexistent kmW [] "sX" [("bogus", some "v")] (by decide)⟩

end SessionMgr
